import Mathlib

/-!
# arena.h : the arena stack (`arena__push`, `arena__pop`, `arena(w) { ... }`)

A shallow embedding of `src/arena.h`.  The header is a collection of
preprocessor definitions over one thread-local object `ARENAS`; each of them is
embedded as a function on an explicit machine state.

* `size_t` values are naturals, reduced modulo `2 ^ 64` where the C arithmetic wraps.
* Pointers are naturals (addresses); `NULL` is `0`, `MAP_FAILED` is `(void *) -1`.
* The operating system (`mmap`/`munmap`, `VirtualAlloc`/`VirtualFree`) is an
  oracle `OS` whose answers may depend on every call made so far; every call
  and every diagnostic is appended to the machine's `trace`.
* An access `ARENAS.stack[i]` with `i` outside `0 .. ARENA_DEPTH-1` has no
  defined behaviour in C; the embedding stops there with status `undefined`.
-/

namespace Arena

/-! ## Data model -/

/-- The `#if` branch of the header that is compiled. -/
inductive Platform
  | posix     -- defined(__linux__) || defined(__APPLE__)
  | windows   -- defined(_WIN32) || defined(_WIN64)
  deriving DecidableEq, Repr

/-- Number of values of `size_t`. -/
def SIZE_MOD : Nat := 2 ^ 64

/-- The null pointer. -/
def NULL : Nat := 0

/-- The value `(void *) -1` that `mmap` returns on failure. -/
def MAP_FAILED : Nat := 2 ^ 64 - 1

/-- The struct `arena_t`, lines 67-71. -/
structure arena_t where
  size : Nat
  base : Nat
  current : Nat
  deriving DecidableEq, Repr

/-- The struct `arena_a`, lines 73-76; `stack` has `ARENA_DEPTH` elements. -/
structure arena_a where
  len : Nat
  stack : List arena_t
  deriving DecidableEq, Repr

/-- The two message constants and the two literal messages of the header. -/
inductive Msg
  | ran_out_of_depth              -- "ran out of depth"
  | pop_with_no_arena             -- "attempted to pop with no existing arena, ..."
  | ARENA_FAILED_TO_ALLOC_ARENA   -- "failed to allocate for arena"
  | ARENA_FAILED_TO_FREE_ARENA    -- "failed to free arena"
  deriving DecidableEq, Repr

/-- What the program does that is visible outside of `ARENAS`. -/
inductive Event
  /-- The call `arena__alloc(size)` (`mmap` / `VirtualAlloc`) and the pointer it returned. -/
  | alloc (size ret : Nat)
  /-- The call made by `arena__free`: `munmap(ptr,size)`, or `VirtualFree(ptr,0,MEM_RELEASE)`
  (then `size` is the literal `0`), and whether the call reported an error. -/
  | free (ptr size : Nat) (failed : Bool)
  /-- The diagnostic printed by `arena__err`. -/
  | err (msg : Msg)
  /-- The diagnostic printed by `arena__perr`. -/
  | perr (msg : Msg)
  deriving DecidableEq, Repr

/-- The operating system as an oracle: the answer to a call may depend on the
calls made so far. -/
structure OS where
  /-- Return value of `mmap(NULL,size,...)`, resp. `VirtualAlloc(NULL,size,...)`. -/
  acquire : List Event → Nat → Nat
  /-- Whether `munmap(ptr,size) == -1`, resp. `!VirtualFree(ptr,0,MEM_RELEASE)`. -/
  release_fails : List Event → Nat → Nat → Bool

/-- Compile-time surroundings of the header.  `ARENA_len` is the value of the
expression `ARENA.len` that `arena__pop` tests: the header declares `ARENAS`
only, so the object `ARENA` comes from the including program; its `len` is
given as a function of the current `ARENAS` (which covers `#define ARENA ARENAS`
as `fun s => s.len`). -/
structure Build where
  platform : Platform
  ARENA_DEPTH : Nat
  ARENA_len : arena_a → Nat

/-- The thread-local state: `ARENAS` and the calls and diagnostics so far. -/
structure Machine where
  ARENAS : arena_a
  trace : List Event
  deriving DecidableEq, Repr

/-- How the evaluation of one of the header's expressions ends. -/
inductive Status
  | returned    -- the expression was evaluated to its end
  | exited      -- `exit(EXIT_FAILURE)` was called
  | undefined   -- `ARENAS.stack` was indexed outside of its bounds
  deriving DecidableEq, Repr

/-- Status and machine state at the end of an evaluation. -/
structure Outcome where
  status : Status
  m : Machine
  deriving DecidableEq, Repr

/-- The initializer `thread_local arena_a ARENAS = {0};`, line 80. -/
def ARENAS_init (B : Build) : arena_a :=
  ⟨0, List.replicate B.ARENA_DEPTH ⟨0, 0, 0⟩⟩

/-- The machine at thread start. -/
def Machine.init (B : Build) : Machine := ⟨ARENAS_init B, []⟩

/-! ## Internal helpers, lines 23-57 -/

/-- `arena__err(msg)`, line 27: print, then `exit(EXIT_FAILURE)`. -/
def arena__err (msg : Msg) (m : Machine) : Outcome :=
  ⟨.exited, ⟨m.ARENAS, m.trace ++ [.err msg]⟩⟩

/-- `arena__perr(msg)`: line 33 is `(perror(msg),exit(EXIT_FAILURE))`, line 46
is a `printf` only. -/
def arena__perr (P : Platform) (msg : Msg) (m : Machine) : Outcome :=
  match P with
  | .posix => ⟨.exited, ⟨m.ARENAS, m.trace ++ [.perr msg]⟩⟩
  | .windows => ⟨.returned, ⟨m.ARENAS, m.trace ++ [.perr msg]⟩⟩

/-- `arena__noop()`, line 29. -/
def arena__noop (m : Machine) : Outcome := ⟨.returned, m⟩

/-- `arena__alloc_failed(ptr)`, lines 43 and 54. -/
def arena__alloc_failed (P : Platform) (ptr : Nat) : Bool :=
  match P with
  | .posix => ptr == MAP_FAILED
  | .windows => ptr == NULL

/-- `arena__free(ptr,size)`, lines 40-42 and 51-53. -/
def arena__free (P : Platform) (os : OS) (ptr size : Nat) (m : Machine) : Outcome :=
  match P with
  | .posix =>
    let failed := os.release_fails m.trace ptr size
    let m1 : Machine := ⟨m.ARENAS, m.trace ++ [.free ptr size failed]⟩
    if failed then arena__perr .posix .ARENA_FAILED_TO_FREE_ARENA m1 else arena__noop m1
  | .windows =>
    let failed := os.release_fails m.trace ptr 0
    let m1 : Machine := ⟨m.ARENAS, m.trace ++ [.free ptr 0 failed]⟩
    if failed then arena__perr .windows .ARENA_FAILED_TO_FREE_ARENA m1 else arena__noop m1

/-! ## Internals, lines 83-105 -/

/-- Reading `ARENAS.stack[i]`: defined for `i < ARENA_DEPTH` only. -/
def stack_at (B : Build) (s : arena_a) (i : Nat) : Option arena_t :=
  if i < B.ARENA_DEPTH then s.stack[i]? else none

/-- `arena__cur`, line 84: `ARENAS.stack[ARENAS.len]`. -/
def arena__cur (B : Build) (s : arena_a) : Option arena_t :=
  stack_at B s s.len

/-- Assignment to `arena__cur`. -/
def arena__cur_set (s : arena_a) (e : arena_t) : arena_a :=
  ⟨s.len, s.stack.set s.len e⟩

/-- `n++` on a `size_t`. -/
def size_t_inc (n : Nat) : Nat := (n + 1) % SIZE_MOD

/-- `n--` on a `size_t`: the value `(n - 1) mod 2^64`, that is `SIZE_MAX` for `n == 0`. -/
def size_t_dec (n : Nat) : Nat := if n = 0 then SIZE_MOD - 1 else n - 1

/-- `arena__push(w)`, lines 87-96. -/
def arena__push (B : Build) (os : OS) (w : Nat) (m : Machine) : Outcome :=
  let s := m.ARENAS
  if (s.len + 1) % SIZE_MOD > B.ARENA_DEPTH then
    arena__err .ran_out_of_depth m
  else
    match arena__cur B s with
    | none => ⟨.undefined, m⟩
    | some e =>
      -- arena__cur.size = (w)
      let e1 : arena_t := ⟨w, e.base, e.current⟩
      -- arena__cur.base = arena__alloc(w)
      let ptr := os.acquire m.trace w
      let tr := m.trace ++ [.alloc w ptr]
      let e2 : arena_t := ⟨e1.size, ptr, e1.current⟩
      -- arena__cur.current = arena__cur.base
      let e3 : arena_t := ⟨e2.size, e2.base, e2.base⟩
      let s3 := arena__cur_set s e3
      -- ARENAS.len++
      let s4 : arena_a := ⟨size_t_inc s3.len, s3.stack⟩
      -- arena__alloc_failed(arena__cur.base) ? arena__perr(...) : arena__noop()
      match arena__cur B s4 with
      | none => ⟨.undefined, ⟨s4, tr⟩⟩
      | some c =>
        if arena__alloc_failed B.platform c.base then
          arena__perr B.platform .ARENA_FAILED_TO_ALLOC_ARENA ⟨s4, tr⟩
        else
          arena__noop ⟨s4, tr⟩

/-- `arena__pop()`, lines 99-105. -/
def arena__pop (B : Build) (os : OS) (m : Machine) : Outcome :=
  let s := m.ARENAS
  if B.ARENA_len s = 0 then
    arena__err .pop_with_no_arena m
  else
    -- arena__free(arena__cur.base, arena__cur.size)
    match arena__cur B s with
    | none => ⟨.undefined, m⟩
    | some c =>
      match arena__free B.platform os c.base c.size m with
      | ⟨.returned, m1⟩ =>
        -- ARENAS.len--
        arena__noop ⟨⟨size_t_dec m1.ARENAS.len, m1.ARENAS.stack⟩, m1.trace⟩
      | r => r

/-! ## The scope statement, lines 116-120 -/

/-- How a C statement completes. -/
inductive Completion
  | normal      -- control reaches the end of the statement
  | cont        -- `continue`
  | brk         -- `break`
  | ret         -- `return` from the enclosing function
  | exited      -- `exit(EXIT_FAILURE)` was called
  | undefined   -- `ARENAS.stack` was indexed outside of its bounds
  | timeout     -- the embedding ran out of fuel
  deriving DecidableEq, Repr

/-- The parts of the `for` statement, as they are evaluated. -/
inductive Step
  | push    -- `arena__push(w)` in the condition
  | body    -- the statement after `arena(w)`
  | pop     -- `arena__pop()` in the iteration expression
  deriving DecidableEq, Repr

/-- A statement: how it completes and the state it leaves. -/
abbrev Stmt := Machine → Completion × Machine

/-- Completion, final state and the parts evaluated, in order. -/
structure Run where
  completion : Completion
  m : Machine
  steps : List Step
  deriving DecidableEq, Repr

/-- Prefix a run with the parts evaluated before it. -/
def Run.after (pre : List Step) (r : Run) : Run :=
  ⟨r.completion, r.m, pre ++ r.steps⟩

/-- The loop of `arena(w)`, from the evaluation of its condition with the
given value of `arena__run`:
`for (bool arena__run = true; arena__run ? (arena__push(w), true) : false;
      (arena__pop(), arena__run = false)) body`.
One unit of fuel is spent per evaluation of the condition. -/
def arena_loop (B : Build) (os : OS) (w : Nat) (body : Stmt) :
    Nat → Bool → Machine → Run
  | 0, _, m => ⟨.timeout, m, []⟩
  | fuel + 1, arena__run, m =>
    if arena__run then
      match arena__push B os w m with
      | ⟨.exited, m1⟩ => ⟨.exited, m1, [.push]⟩
      | ⟨.undefined, m1⟩ => ⟨.undefined, m1, [.push]⟩
      | ⟨.returned, m1⟩ =>
        match body m1 with
        | (.brk, m2) => ⟨.normal, m2, [.push, .body]⟩
        | (.ret, m2) => ⟨.ret, m2, [.push, .body]⟩
        | (.exited, m2) => ⟨.exited, m2, [.push, .body]⟩
        | (.undefined, m2) => ⟨.undefined, m2, [.push, .body]⟩
        | (.timeout, m2) => ⟨.timeout, m2, [.push, .body]⟩
        | (_, m2) =>
          -- normal completion or `continue`: (arena__pop(), arena__run = false)
          match arena__pop B os m2 with
          | ⟨.exited, m3⟩ => ⟨.exited, m3, [.push, .body, .pop]⟩
          | ⟨.undefined, m3⟩ => ⟨.undefined, m3, [.push, .body, .pop]⟩
          | ⟨.returned, m3⟩ =>
            (arena_loop B os w body fuel false m3).after [.push, .body, .pop]
    else
      ⟨.normal, m, []⟩

/-- The statement `arena(w) body`, lines 118-120. -/
def arena (B : Build) (os : OS) (w : Nat) (body : Stmt) (fuel : Nat) (m : Machine) : Run :=
  arena_loop B os w body fuel true m

/-- The empty statement `;` or `{}`. -/
def skip : Stmt := fun m => (.normal, m)

/-- The statement `arena(w) body` as a statement of its own. -/
def scope (B : Build) (os : OS) (w : Nat) (body : Stmt) : Stmt := fun m =>
  ((arena B os w body 2 m).completion, (arena B os w body 2 m).m)

/-- Scopes nested in one another, outermost first:
`arena(w1) arena(w2) ... arena(wn) {}`. -/
def nest (B : Build) (os : OS) : List Nat → Stmt
  | [] => skip
  | w :: ws => scope B os w (nest B os ws)

/-- The completion of a statement that ends with the given status. -/
def Status.completion : Status → Completion
  | .returned => .normal
  | .exited => .exited
  | .undefined => .undefined

/-- The statement `break;`. -/
def stmt_break : Stmt := fun m => (.brk, m)

/-- The statement `return;`. -/
def stmt_return : Stmt := fun m => (.ret, m)

/-- The events appended to the trace between `m` and `r`. -/
def emitted (m r : Machine) : List Event := r.trace.drop m.trace.length

/-- The `free` calls of a trace, as pairs `(ptr, size)`. -/
def releases : List Event → List (Nat × Nat)
  | [] => []
  | .free p sz _ :: t => (p, sz) :: releases t
  | _ :: t => releases t

/-- The `alloc` calls of a trace, as pairs `(ret, size)`. -/
def acquires : List Event → List (Nat × Nat)
  | [] => []
  | .alloc sz p :: t => (p, sz) :: acquires t
  | _ :: t => acquires t

/-! ## Concrete builds, operating systems and states -/

/-- The default build on Linux/macOS with `ARENA` standing for `ARENAS`. -/
def posix10 : Build := ⟨.posix, 10, fun s => s.len⟩

/-- The default build on Windows with `ARENA` standing for `ARENAS`. -/
def windows10 : Build := ⟨.windows, 10, fun s => s.len⟩

/-- The default build on Linux/macOS where the including program declares an
object `ARENA` of its own whose `len` is `n`. -/
def posix10_own (n : Nat) : Build := ⟨.posix, 10, fun _ => n⟩

/-- The default build on Windows where the including program declares an
object `ARENA` of its own whose `len` is `n`. -/
def windows10_own (n : Nat) : Build := ⟨.windows, 10, fun _ => n⟩

/-- An operating system whose mappings all succeed, at fresh multiples of
`65536`, and whose release of the null pointer reports an error, as
`VirtualFree(NULL, 0, MEM_RELEASE)` does. -/
def os_null_release_error : OS :=
  ⟨fun tr _ => 65536 * (tr.length + 1), fun _ ptr _ => ptr == 0⟩

/-- An operating system whose mappings all succeed, at fresh multiples of
`65536`, and whose releases all succeed. -/
def os_ok : OS := ⟨fun tr _ => 65536 * (tr.length + 1), fun _ _ _ => false⟩

/-- An operating system that refuses every mapping on Linux/macOS. -/
def os_no_memory : OS := ⟨fun _ _ => MAP_FAILED, fun _ _ _ => false⟩

/-- As `os_ok`, but the second call of the thread (the one made after exactly
one event) is a mapping that is refused on Linux/macOS. -/
def os_second_refused : OS :=
  ⟨fun tr _ => if tr.length = 1 then MAP_FAILED else 65536 * (tr.length + 1),
   fun _ _ _ => false⟩

/-- An operating system whose releases all report an error. -/
def os_release_error : OS := ⟨fun tr _ => 65536 * (tr.length + 1), fun _ _ _ => true⟩

/-- The ten slots of `ARENAS.stack` all zero except the first `k`, which hold
regions of 4096 bytes at `65536`, `131072`, ... -/
def slots (k : Nat) : List arena_t :=
  (List.range 10).map fun i =>
    if i < k then ⟨4096, 65536 * (i + 1), 65536 * (i + 1)⟩ else ⟨0, 0, 0⟩

/-- The machine after `k` regions of 4096 bytes were pushed under `os_ok`. -/
def pushed (k : Nat) : Machine :=
  ⟨⟨k, slots k⟩, (List.range k).map fun i => .alloc 4096 (65536 * (i + 1))⟩

/-- An empty stack whose slot 1 still holds the region of 64 bytes for which
`mmap` returned `MAP_FAILED`: the state left by
`arena(4096) arena(64) {}` under `os_second_refused`. -/
def stale : Machine :=
  ⟨⟨0, [⟨4096, 65536, 65536⟩, ⟨64, MAP_FAILED, MAP_FAILED⟩, ⟨0, 0, 0⟩, ⟨0, 0, 0⟩, ⟨0, 0, 0⟩,
        ⟨0, 0, 0⟩, ⟨0, 0, 0⟩, ⟨0, 0, 0⟩, ⟨0, 0, 0⟩, ⟨0, 0, 0⟩]⟩,
   [.alloc 4096 65536, .alloc 64 MAP_FAILED, .free 0 0 false, .free MAP_FAILED 64 false]⟩

/-! ## The allocation hooks, lines 122-132 -/

/-- The statements `a b`, one after the other. -/
def seq (a b : Stmt) : Stmt := fun m =>
  match a m with
  | (.normal, m1) => b m1
  | r => r

/-- `malloc(s)`, line 123: the replacement list is empty, so `malloc(s);` is
the empty statement and `s` is not evaluated. -/
def malloc (_s : Nat) : Stmt := skip

/-- `calloc(n,s)`, line 125: the replacement list is empty. -/
def calloc (_n _s : Nat) : Stmt := skip

/-- `realloc(p,s)`, line 127: the replacement list is empty. -/
def realloc (_p _s : Nat) : Stmt := skip

/-- `free(p)`, line 129: the replacement list is empty. -/
def free (_p : Nat) : Stmt := skip

/-- `ralloc(p,s,f)`, line 132: the replacement list is empty. -/
def ralloc (_p _s _f : Nat) : Stmt := skip

/-- A request to one of the hooks that are meant to return memory. -/
inductive Request
  | malloc (s : Nat)
  | calloc (n s : Nat)
  | realloc (p s : Nat)
  | ralloc (p s f : Nat)
  deriving DecidableEq, Repr

/-- The statement that makes the request. -/
def Request.stmt : Request → Stmt
  | .malloc s => Arena.malloc s
  | .calloc n s => Arena.calloc n s
  | .realloc p s => Arena.realloc p s
  | .ralloc p s f => Arena.ralloc p s f

/-- The requests, one after the other. -/
def requests : List Request → Stmt
  | [] => skip
  | r :: rs => seq r.stmt (requests rs)

/-- The region that the spec calls active, `entries[depth-1]`: here
`ARENAS.stack[ARENAS.len-1]`, the region stored by the last `arena__push` that
was not popped. -/
def active (s : arena_a) : Option arena_t :=
  if s.len = 0 then none else s.stack[s.len - 1]?

/-- The cursor offset of the active region, `current - base`. -/
def cursor (m : Machine) : Option Nat :=
  (active m.ARENAS).map fun e => e.current - e.base

/-- The `allocate(byteSize, alignment)` of the spec (section 4.4), in its
words: `a` is the least offset with `a >= c` and `a mod alignment == 0`; if
`a + byteSize > cap` the result is `RegionExhausted` (`none`) and the cursor
stays `c`, otherwise the result is `a` and the cursor becomes `a + byteSize`.
The pair is (result, cursor afterwards). -/
def spec_allocate (c cap byteSize alignment : Nat) : Option Nat × Nat :=
  let a := (c + alignment - 1) / alignment * alignment
  if a + byteSize > cap then (none, c) else (some a, a + byteSize)

/-- The machine after `arena__push(1024)` on the fresh stack under `os_ok`. -/
def region1024 : Machine :=
  ⟨⟨1, [⟨1024, 65536, 65536⟩, ⟨0, 0, 0⟩, ⟨0, 0, 0⟩, ⟨0, 0, 0⟩, ⟨0, 0, 0⟩,
        ⟨0, 0, 0⟩, ⟨0, 0, 0⟩, ⟨0, 0, 0⟩, ⟨0, 0, 0⟩, ⟨0, 0, 0⟩]⟩,
   [.alloc 1024 65536]⟩

/-! ## Sequences of calls, and the indices they use -/

/-- A call of one of the two internals. -/
inductive Op
  | push (w : Nat)   -- `arena__push(w)`
  | pop              -- `arena__pop()`
  deriving DecidableEq, Repr

/-- The call, evaluated. -/
def Op.run (B : Build) (os : OS) : Op → Machine → Outcome
  | .push w, m => arena__push B os w m
  | .pop, m => arena__pop B os m

/-- The calls in order; a call is made only if every call before it returned. -/
def calls (B : Build) (os : OS) : List Op → Machine → Outcome
  | [], m => ⟨.returned, m⟩
  | op :: ops, m =>
    match op.run B os m with
    | ⟨.returned, m1⟩ => calls B os ops m1
    | r => r

/-- The indices `i` of the accesses `ARENAS.stack[i]` that `arena__push(w)`
asks for, in the order of evaluation. -/
def arena__push_accesses (B : Build) (s : arena_a) : List Nat :=
  if (s.len + 1) % SIZE_MOD > B.ARENA_DEPTH then
    []
  else
    [s.len,              -- arena__cur.size = (w)
     s.len,              -- arena__cur.base = arena__alloc(w)
     s.len, s.len,       -- arena__cur.current = arena__cur.base
     size_t_inc s.len]   -- arena__alloc_failed(arena__cur.base), after ARENAS.len++

/-- The indices `i` of the accesses `ARENAS.stack[i]` that `arena__pop()` asks
for: the arguments of `arena__free`, of which line 51 drops the second. -/
def arena__pop_accesses (B : Build) (s : arena_a) : List Nat :=
  if B.ARENA_len s = 0 then
    []
  else
    match B.platform with
    | .posix => [s.len, s.len]   -- arena__cur.base, arena__cur.size
    | .windows => [s.len]        -- arena__cur.base

/-! ## Shared lemmas -/

theorem size_t_dec_eq_mod (n : Nat) (h : n < SIZE_MOD) :
    size_t_dec n = (n + SIZE_MOD - 1) % SIZE_MOD := by
  unfold size_t_dec SIZE_MOD at *
  split <;> omega

theorem emitted_self (m : Machine) : emitted m m = [] := by
  simp [emitted]

/-! ## `arena__pop`: which region is released -/

/-- C1 (the code departs from the claim).  The claim: at depth `d > 0`,
`arena__pop` releases the top region `stack[d-1]` with its own base and size.
Evaluated on the machine that one successful `arena__push(4096)` leaves
(depth 1, block `65536` in `stack[0]`): `arena__pop` calls `munmap(0, 0)`, the
contents of the never written `stack[1]`, and the block `65536` is not
released, although the depth goes back to 0. -/
theorem pop_releases_slot_above_top :
    arena__push posix10 os_ok 4096 (Machine.init posix10) = ⟨.returned, pushed 1⟩ ∧
    (pushed 1).ARENAS.len = 1 ∧
    (pushed 1).ARENAS.stack[0]? = some ⟨4096, 65536, 65536⟩ ∧
    arena__pop posix10 os_ok (pushed 1)
      = ⟨.returned, ⟨⟨0, slots 1⟩, [.alloc 4096 65536, .free 0 0 false]⟩⟩ ∧
    releases (emitted (pushed 1) (arena__pop posix10 os_ok (pushed 1)).m) = [(0, 0)] ∧
    (65536, 4096) ∉ releases (arena__pop posix10 os_ok (pushed 1)).m.trace := by
  decide

/-! ## `arena__push`: the new region and the failure check -/

/-- C2 (the code departs from the claim).  The claim: at depth `d < ARENA_DEPTH`,
when the mapping succeeds `arena__push` succeeds.  The failure check is made
after `ARENAS.len++`, so it reads `stack[d+1].base`, not the new `stack[d].base`.
On `stale` (depth 0, left by `arena(4096) arena(64) {}` when the inner `mmap`
was refused) the mapping succeeds with block `327680`, the region is stored in
`stack[0]` and the depth becomes 1, yet `arena__push` prints "failed to
allocate for arena" and exits.  At depth 9 of 10 the check reads `stack[10]`. -/
theorem push_checks_slot_above_new :
    nest posix10 os_second_refused [4096, 64] (Machine.init posix10) = (.normal, stale) ∧
    stale.ARENAS.len = 0 ∧
    os_second_refused.acquire stale.trace 4096 = 327680 ∧
    arena__alloc_failed .posix 327680 = false ∧
    (arena__push posix10 os_second_refused 4096 stale).status = .exited ∧
    emitted stale (arena__push posix10 os_second_refused 4096 stale).m
      = [.alloc 4096 327680, .perr .ARENA_FAILED_TO_ALLOC_ARENA] ∧
    (arena__push posix10 os_second_refused 4096 stale).m.ARENAS.len = 1 ∧
    (arena__push posix10 os_second_refused 4096 stale).m.ARENAS.stack[0]?
      = some ⟨4096, 327680, 327680⟩ ∧
    arena__push posix10 os_ok 4096 (pushed 9) = ⟨.undefined, pushed 10⟩ := by
  decide

/-- C4 (the code departs from the claim).  The claim: when the mapping fails,
`arena__push` ends the process and never returns with a live region whose base
is the failure value.  On the fresh stack with `mmap` returning `MAP_FAILED`,
the check after `ARENAS.len++` reads `stack[1].base == 0`, so `arena__push`
returns, prints nothing, and leaves depth 1 with `stack[0].base == MAP_FAILED`. -/
theorem push_returns_with_failed_mapping :
    os_no_memory.acquire (Machine.init posix10).trace 4096 = MAP_FAILED ∧
    arena__alloc_failed .posix MAP_FAILED = true ∧
    (arena__push posix10 os_no_memory 4096 (Machine.init posix10)).status = .returned ∧
    emitted (Machine.init posix10) (arena__push posix10 os_no_memory 4096 (Machine.init posix10)).m
      = [.alloc 4096 MAP_FAILED] ∧
    (arena__push posix10 os_no_memory 4096 (Machine.init posix10)).m.ARENAS.len = 1 ∧
    (arena__push posix10 os_no_memory 4096 (Machine.init posix10)).m.ARENAS.stack[0]?
      = some ⟨4096, MAP_FAILED, MAP_FAILED⟩ := by
  decide

/-! ## `arena__pop`: the guard -/

/-- C5 (the code departs from the claim).  The claim: `arena__pop` fails with
the empty-stack diagnostic exactly when `ARENAS.len == 0`, releasing nothing and
leaving the depth.  The guard tests `ARENA.len`, and `ARENA` is not `ARENAS`.
With an `ARENA` whose `len` is 1 and the fresh stack (depth 0), `arena__pop`
prints nothing, calls `munmap(0, 0)` and decrements the depth to `2^64 - 1`;
with an `ARENA` whose `len` is 0 and depth 1, it prints the diagnostic and exits. -/
theorem pop_guard_reads_other_object :
    (Machine.init (posix10_own 1)).ARENAS.len = 0 ∧
    arena__pop (posix10_own 1) os_ok (Machine.init (posix10_own 1))
      = ⟨.returned, ⟨⟨2 ^ 64 - 1, slots 0⟩, [.free 0 0 false]⟩⟩ ∧
    (pushed 1).ARENAS.len = 1 ∧
    arena__pop (posix10_own 0) os_ok (pushed 1)
      = ⟨.exited, ⟨(pushed 1).ARENAS, (pushed 1).trace ++ [.err .pop_with_no_arena]⟩⟩ := by
  decide

/-! ## Nested scopes -/

/-- C6 (the code departs from the claim).  The claim: after `n` nested scopes
have closed, the releases are exactly the acquired blocks, each with its size,
innermost first.  One scope of 4096 bytes on the fresh stack: the block
`65536` is acquired and `munmap(0, 0)` is the only release.  Two nested scopes
of 4096 and 64 bytes: blocks `65536` and `131072` are acquired, the releases are
`munmap(0, 0)` and `munmap(131072, 64)`, and block `65536` is never released. -/
theorem nested_scopes_release_shifted :
    (nest posix10 os_ok [4096] (Machine.init posix10)).1 = .normal ∧
    acquires (nest posix10 os_ok [4096] (Machine.init posix10)).2.trace = [(65536, 4096)] ∧
    releases (nest posix10 os_ok [4096] (Machine.init posix10)).2.trace = [(0, 0)] ∧
    (nest posix10 os_ok [4096, 64] (Machine.init posix10)).1 = .normal ∧
    (nest posix10 os_ok [4096, 64] (Machine.init posix10)).2.ARENAS.len = 0 ∧
    acquires (nest posix10 os_ok [4096, 64] (Machine.init posix10)).2.trace
      = [(65536, 4096), (131072, 64)] ∧
    releases (nest posix10 os_ok [4096, 64] (Machine.init posix10)).2.trace
      = [(0, 0), (131072, 64)] := by
  decide

/-! ## The scope statement -/

/-- C7 (counterexample).  `arena(4096) { break; }` and `arena(4096) { return; }`
on the fresh stack: `arena__push` and the body are evaluated, `arena__pop` is
not, nothing is released and the depth stays 1. -/
theorem scope_early_exit_skips_pop :
    arena posix10 os_ok 4096 stmt_break 2 (Machine.init posix10)
      = ⟨.normal, pushed 1, [.push, .body]⟩ ∧
    arena posix10 os_ok 4096 stmt_return 2 (Machine.init posix10)
      = ⟨.ret, pushed 1, [.push, .body]⟩ ∧
    Step.pop ∉ (arena posix10 os_ok 4096 stmt_break 2 (Machine.init posix10)).steps ∧
    Step.pop ∉ (arena posix10 os_ok 4096 stmt_return 2 (Machine.init posix10)).steps ∧
    releases (pushed 1).trace = [] ∧
    (pushed 1).ARENAS.len = 1 := by
  decide

/-- C7 (amended).  When `arena__push(w)` returns, `arena(w) body` evaluates it
once, then the body once.  If the body completes normally or by `continue`,
`arena__pop()` is evaluated once after it and the statement ends there; if the
body leaves by `break` or `return`, `arena__pop()` is not evaluated and the
machine is left as the body left it.  Two units of fuel are enough. -/
theorem scope_pairs_push_pop (B : Build) (os : OS) (w : Nat) (body : Stmt) (fuel : Nat)
    (m m1 m2 : Machine) (c : Completion) (hfuel : 2 ≤ fuel)
    (hpush : arena__push B os w m = ⟨.returned, m1⟩) (hbody : body m1 = (c, m2)) :
    (c = .normal ∨ c = .cont →
      arena B os w body fuel m
        = ⟨(arena__pop B os m2).status.completion, (arena__pop B os m2).m,
           [.push, .body, .pop]⟩) ∧
    (c = .brk → arena B os w body fuel m = ⟨.normal, m2, [.push, .body]⟩) ∧
    (c = .ret → arena B os w body fuel m = ⟨.ret, m2, [.push, .body]⟩) := by
  obtain ⟨k, rfl⟩ : ∃ k, fuel = k + 2 := ⟨fuel - 2, by omega⟩
  refine ⟨?_, ?_, ?_⟩
  · intro hc
    have hrun : arena B os w body (k + 2) m
        = match arena__pop B os m2 with
          | ⟨.exited, m3⟩ => ⟨.exited, m3, [.push, .body, .pop]⟩
          | ⟨.undefined, m3⟩ => ⟨.undefined, m3, [.push, .body, .pop]⟩
          | ⟨.returned, m3⟩ => ⟨.normal, m3, [.push, .body, .pop]⟩ := by
      rcases hc with rfl | rfl <;>
        simp only [arena, arena_loop, hpush, hbody, if_true] <;>
        (cases arena__pop B os m2 with
         | mk st m3 => cases st <;> simp [arena_loop, Run.after])
    rw [hrun]
    cases arena__pop B os m2 with
    | mk st m3 => cases st <;> simp [Status.completion]
  · rintro rfl
    simp [arena, arena_loop, hpush, hbody]
  · rintro rfl
    simp [arena, arena_loop, hpush, hbody]

/-- Witness for C7 (amended): the empty body and `break` on the fresh stack. -/
theorem scope_pairs_push_pop_witness :
    (2 ≤ 2) ∧
    arena__push posix10 os_ok 4096 (Machine.init posix10) = ⟨.returned, pushed 1⟩ ∧
    skip (pushed 1) = (.normal, pushed 1) ∧
    arena posix10 os_ok 4096 skip 2 (Machine.init posix10)
      = ⟨(arena__pop posix10 os_ok (pushed 1)).status.completion,
         (arena__pop posix10 os_ok (pushed 1)).m, [.push, .body, .pop]⟩ :=
  ⟨by decide, by decide, rfl,
   (scope_pairs_push_pop posix10 os_ok 4096 skip 2 (Machine.init posix10) (pushed 1) (pushed 1)
      .normal (by decide) (by decide) rfl).1 (Or.inl rfl)⟩

/-- C8 (the code departs from the claim).  The claim: at every depth
`d < ARENA_DEPTH` where mapping and release succeed, `arena(w) body` runs the
body once and ends at depth `d`.  On the fresh stack it does.  On `stale`
(depth 0) the mapping succeeds, but the failure check reads `stack[1].base`,
the process exits and the body is never run; at depth 9 of 10 the check reads
`stack[10]` and the body is never run. -/
theorem scope_body_not_run :
    arena posix10 os_ok 4096 skip 2 (Machine.init posix10)
      = ⟨.normal, ⟨⟨0, slots 1⟩, [.alloc 4096 65536, .free 0 0 false]⟩, [.push, .body, .pop]⟩ ∧
    nest posix10 os_second_refused [4096, 64] (Machine.init posix10) = (.normal, stale) ∧
    stale.ARENAS.len = 0 ∧
    os_second_refused.acquire stale.trace 4096 = 327680 ∧
    (arena posix10 os_second_refused 4096 skip 2 stale).completion = .exited ∧
    (arena posix10 os_second_refused 4096 skip 2 stale).steps = [.push] ∧
    (arena posix10 os_second_refused 4096 skip 2 stale).m.ARENAS.len = 1 ∧
    (pushed 9).ARENAS.len = 9 ∧
    arena posix10 os_ok 4096 skip 2 (pushed 9) = ⟨.undefined, pushed 10, [.push]⟩ := by
  decide

/-! ## Frame of an inner scope -/

theorem free_ARENAS (P : Platform) (os : OS) (ptr size : Nat) (m : Machine) :
    (arena__free P os ptr size m).m.ARENAS = m.ARENAS := by
  cases P <;> simp only [arena__free, arena__perr, arena__noop] <;> split <;> rfl

theorem pop_stack (B : Build) (os : OS) (m : Machine) :
    (arena__pop B os m).m.ARENAS.stack = m.ARENAS.stack := by
  unfold arena__pop
  simp only []
  by_cases hg : B.ARENA_len m.ARENAS = 0
  · rw [if_pos hg]; rfl
  · rw [if_neg hg]
    cases hc : arena__cur B m.ARENAS with
    | none => rfl
    | some c =>
      have hf := free_ARENAS B.platform os c.base c.size m
      simp only []
      revert hf
      generalize arena__free B.platform os c.base c.size m = r
      intro hf
      obtain ⟨st, m1⟩ := r
      have hs : m1.ARENAS.stack = m.ARENAS.stack := congrArg arena_a.stack hf
      cases st <;> exact hs

theorem push_stack (B : Build) (os : OS) (w : Nat) (m : Machine) :
    (arena__push B os w m).m.ARENAS.stack = m.ARENAS.stack ∨
    ∃ e, (arena__push B os w m).m.ARENAS.stack = m.ARENAS.stack.set m.ARENAS.len e := by
  unfold arena__push
  simp only []
  split
  · exact Or.inl rfl
  · cases hc : arena__cur B m.ARENAS with
    | none => exact Or.inl rfl
    | some e =>
      refine Or.inr ⟨⟨w, os.acquire m.trace w, os.acquire m.trace w⟩, ?_⟩
      simp only []
      split
      · rfl
      · split
        · cases hp : B.platform <;> simp [arena__perr, arena__cur_set]
        · rfl

/-- C9.  The entries below the top are not written by an inner scope: for every
index `i` below the depth, `stack[i]` (size, base and current) is the same
before `arena__push(w)`, after it, and after the `arena__pop()` that follows,
however the two end. -/
theorem inner_scope_frames_outer (B : Build) (os : OS) (w : Nat) (m : Machine) (i : Nat)
    (hi : i < m.ARENAS.len) :
    (arena__push B os w m).m.ARENAS.stack[i]? = m.ARENAS.stack[i]? ∧
    (arena__pop B os (arena__push B os w m).m).m.ARENAS.stack[i]? = m.ARENAS.stack[i]? := by
  have hpush : (arena__push B os w m).m.ARENAS.stack[i]? = m.ARENAS.stack[i]? := by
    rcases push_stack B os w m with h | ⟨e, h⟩
    · rw [h]
    · rw [h, List.getElem?_set_ne (by omega)]
  exact ⟨hpush, by rw [pop_stack, hpush]⟩

/-- Witness for C9: outer region of 4096 bytes, inner region of 64 bytes; both
`arena__push(64)` and `arena__pop()` return. -/
theorem inner_scope_frames_outer_witness :
    (0 < (pushed 1).ARENAS.len) ∧
    (pushed 1).ARENAS.stack[0]? = some ⟨4096, 65536, 65536⟩ ∧
    (arena__push posix10 os_ok 64 (pushed 1)).status = .returned ∧
    (arena__pop posix10 os_ok (arena__push posix10 os_ok 64 (pushed 1)).m).status = .returned ∧
    ((arena__push posix10 os_ok 64 (pushed 1)).m.ARENAS.stack[0]? = (pushed 1).ARENAS.stack[0]? ∧
     (arena__pop posix10 os_ok (arena__push posix10 os_ok 64 (pushed 1)).m).m.ARENAS.stack[0]?
       = (pushed 1).ARENAS.stack[0]?) :=
  ⟨by decide, by decide, by decide, by decide,
   inner_scope_frames_outer posix10 os_ok 64 (pushed 1) 0 (by decide)⟩

/-! ## `arena__pop`: a release that reports an error -/

/-- C10 (the code departs from the claim).  The claim: when the release
reports an error, `arena__pop` ends the process on every platform.  On
Linux/macOS it does.  On Windows `arena__perr` is a `printf` without `exit`:
at depth 1 with `VirtualFree` returning false, `arena__pop` prints "failed to
free arena", decrements the depth to 0 and returns. -/
theorem pop_returns_after_release_error :
    os_release_error.release_fails (pushed 1).trace 0 0 = true ∧
    arena__pop windows10 os_release_error (pushed 1)
      = ⟨.returned, ⟨⟨0, slots 1⟩,
          [.alloc 4096 65536, .free 0 0 true, .perr .ARENA_FAILED_TO_FREE_ARENA]⟩⟩ ∧
    arena__pop posix10 os_release_error (pushed 1)
      = ⟨.exited, ⟨⟨1, slots 1⟩,
          [.alloc 4096 65536, .free 0 0 true, .perr .ARENA_FAILED_TO_FREE_ARENA]⟩⟩ := by
  decide

/-! ## The allocation hooks -/

/-- C11 (counterexample).  A region of 1024 bytes with cursor offset 0 and
three requests of 400 bytes.  The allocation of the spec gives offsets 0 and
400 and then `RegionExhausted` with the cursor at 800.  `malloc(400)` leaves
the cursor at 0, once and three times over, and the machine as it was. -/
theorem malloc_leaves_cursor :
    arena__push posix10 os_ok 1024 (Machine.init posix10) = ⟨.returned, region1024⟩ ∧
    cursor region1024 = some 0 ∧
    spec_allocate 0 1024 400 8 = (some 0, 400) ∧
    spec_allocate 400 1024 400 8 = (some 400, 800) ∧
    spec_allocate 800 1024 400 8 = (none, 800) ∧
    cursor (malloc 400 region1024).2 = some 0 ∧
    cursor (malloc 400 region1024).2 ≠ some (spec_allocate 0 1024 400 8).2 ∧
    requests [.malloc 400, .malloc 400, .malloc 400] region1024 = (.normal, region1024) ∧
    cursor (requests [.malloc 400, .malloc 400, .malloc 400] region1024).2 ≠ some 800 := by
  decide

/-- C11 (amended).  Every sequence of requests `malloc(s)`, `calloc(n,s)`,
`realloc(p,s)`, `ralloc(p,s,f)` completes normally and leaves the machine as it
was: the depth, every region (size, base, current), hence the cursor of the
active region, and the trace, to which no call and no diagnostic is added. -/
theorem allocation_hooks_leave_machine (rs : List Request) (m : Machine) :
    requests rs m = (.normal, m) ∧
    cursor (requests rs m).2 = cursor m ∧
    emitted m (requests rs m).2 = [] := by
  have h : requests rs m = (.normal, m) := by
    induction rs with
    | nil => rfl
    | cons r rs ih =>
      cases r <;> simpa [requests, seq, Request.stmt, malloc, calloc, realloc, ralloc, skip]
        using ih
  rw [h]
  exact ⟨rfl, rfl, emitted_self m⟩

/-- C12.  `free(p)` completes normally and leaves the machine as it was: the
depth and every region (size, base, current) are unchanged and no event, in
particular no release, is added to the trace. -/
theorem free_leaves_machine (p : Nat) (m : Machine) :
    free p m = (.normal, m) ∧
    (free p m).2.ARENAS = m.ARENAS ∧
    emitted m (free p m).2 = [] ∧
    releases (emitted m (free p m).2) = [] := by
  have h : free p m = (.normal, m) := rfl
  rw [h]
  simp [emitted_self, releases]

/-! ## The depth along sequences of calls -/

theorem push_len_le (B : Build) (os : OS) (w : Nat) (m : Machine)
    (h : m.ARENAS.len ≤ B.ARENA_DEPTH) :
    (arena__push B os w m).m.ARENAS.len ≤ B.ARENA_DEPTH := by
  unfold arena__push
  simp only []
  by_cases hg : (m.ARENAS.len + 1) % SIZE_MOD > B.ARENA_DEPTH
  · rw [if_pos hg]; exact h
  · rw [if_neg hg]
    cases hc : arena__cur B m.ARENAS with
    | none => exact h
    | some e =>
      have hl : size_t_inc m.ARENAS.len ≤ B.ARENA_DEPTH := by
        unfold size_t_inc; omega
      simp only [arena__cur_set]
      split
      · exact hl
      · split
        · cases hp : B.platform <;> simp only [arena__perr] <;> exact hl
        · exact hl

theorem pop_len_le (B : Build) (os : OS) (m : Machine)
    (hA : ∀ s : arena_a, s.len = 0 → B.ARENA_len s = 0)
    (h : m.ARENAS.len ≤ B.ARENA_DEPTH) :
    (arena__pop B os m).m.ARENAS.len ≤ B.ARENA_DEPTH := by
  unfold arena__pop
  simp only []
  by_cases hg : B.ARENA_len m.ARENAS = 0
  · rw [if_pos hg]; exact h
  · rw [if_neg hg]
    cases hc : arena__cur B m.ARENAS with
    | none => exact h
    | some c =>
      have hf := free_ARENAS B.platform os c.base c.size m
      simp only []
      revert hf
      generalize arena__free B.platform os c.base c.size m = r
      intro hf
      obtain ⟨st, m1⟩ := r
      have hs : m1.ARENAS.len = m.ARENAS.len := congrArg arena_a.len hf
      have hd : size_t_dec m1.ARENAS.len ≤ B.ARENA_DEPTH := by
        have h0 : m.ARENAS.len ≠ 0 := fun h0 => hg (hA _ h0)
        unfold size_t_dec
        rw [hs, if_neg h0]
        omega
      cases st
      · exact hd
      · simp only []; omega
      · simp only []; omega

/-- When the guard of `arena__pop` fires on every empty stack (as it does when
`ARENA` stands for `ARENAS`), the depth stays within `0 .. ARENA_DEPTH` along
every sequence of calls. -/
theorem calls_len_le (B : Build) (os : OS) (ops : List Op) (m : Machine)
    (hA : ∀ s : arena_a, s.len = 0 → B.ARENA_len s = 0)
    (h : m.ARENAS.len ≤ B.ARENA_DEPTH) :
    (calls B os ops m).m.ARENAS.len ≤ B.ARENA_DEPTH := by
  induction ops generalizing m with
  | nil => exact h
  | cons op ops ih =>
    have hop : (op.run B os m).m.ARENAS.len ≤ B.ARENA_DEPTH := by
      cases op with
      | push w => exact push_len_le B os w m h
      | pop => exact pop_len_le B os m hA h
    unfold calls
    revert hop
    generalize op.run B os m = r
    intro hop
    obtain ⟨st, m1⟩ := r
    cases st
    · exact ih m1 hop
    · exact hop
    · exact hop

/-- C14 (the code departs from the claim).  The claim: from the empty stack,
every sequence of `arena__push` and `arena__pop` calls keeps the depth within
`0 .. ARENA_DEPTH`.  The guard of `arena__pop` tests `ARENA.len`, not
`ARENAS.len`.  On the Windows build with an `ARENA` whose `len` is 1, the single
call `arena__pop()` on the fresh stack passes the guard, calls
`VirtualFree(NULL, 0, MEM_RELEASE)`, which reports an error, prints "failed to
free arena" (line 46 does not exit), evaluates `ARENAS.len--` at depth 0 and
returns with the depth at `2^64 - 1`. -/
theorem pop_on_empty_leaves_huge_depth :
    (Machine.init (windows10_own 1)).ARENAS.len = 0 ∧
    os_null_release_error.release_fails (Machine.init (windows10_own 1)).trace 0 0 = true ∧
    calls (windows10_own 1) os_null_release_error [.pop] (Machine.init (windows10_own 1))
      = ⟨.returned, ⟨⟨2 ^ 64 - 1, slots 0⟩,
          [.free 0 0 true, .perr .ARENA_FAILED_TO_FREE_ARENA]⟩⟩ ∧
    ¬ (calls (windows10_own 1) os_null_release_error [.pop]
        (Machine.init (windows10_own 1))).m.ARENAS.len
      ≤ (windows10_own 1).ARENA_DEPTH := by
  decide

/-! ## The indices of `ARENAS.stack` -/

theorem stack_at_eq_none (B : Build) (s : arena_a) (i : Nat)
    (hlen : s.stack.length = B.ARENA_DEPTH) :
    stack_at B s i = none ↔ B.ARENA_DEPTH ≤ i := by
  unfold stack_at
  by_cases h : i < B.ARENA_DEPTH
  · rw [if_pos h]
    have : i < s.stack.length := by omega
    simp [List.getElem?_eq_getElem this]
    omega
  · rw [if_neg h]
    simp
    omega

theorem perr_status_ne (P : Platform) (msg : Msg) (m : Machine) :
    (arena__perr P msg m).status ≠ .undefined := by
  cases P <;> simp [arena__perr]

theorem push_undefined_iff (B : Build) (os : OS) (w : Nat) (m : Machine)
    (hlen : m.ARENAS.stack.length = B.ARENA_DEPTH) :
    (arena__push B os w m).status = .undefined ↔
      ∃ i ∈ arena__push_accesses B m.ARENAS, B.ARENA_DEPTH ≤ i := by
  unfold arena__push arena__push_accesses
  simp only []
  by_cases hg : (m.ARENAS.len + 1) % SIZE_MOD > B.ARENA_DEPTH
  · rw [if_pos hg, if_pos hg]
    simp [arena__err]
  · rw [if_neg hg, if_neg hg]
    have h1 := stack_at_eq_none B m.ARENAS m.ARENAS.len hlen
    cases hc : arena__cur B m.ARENAS with
    | none =>
      have : B.ARENA_DEPTH ≤ m.ARENAS.len := h1.1 hc
      simp [this]
    | some e =>
      have hlt : ¬ B.ARENA_DEPTH ≤ m.ARENAS.len := fun h => by
        have := h1.2 h
        rw [arena__cur] at hc
        rw [this] at hc
        exact Option.noConfusion hc
      have h2 := stack_at_eq_none B
        ⟨size_t_inc m.ARENAS.len,
          m.ARENAS.stack.set m.ARENAS.len ⟨w, os.acquire m.trace w, os.acquire m.trace w⟩⟩
        (size_t_inc m.ARENAS.len) (by simp [hlen])
      simp only [arena__cur_set, arena__cur] at h2 ⊢
      cases hc2 : stack_at B
        ⟨size_t_inc m.ARENAS.len,
          m.ARENAS.stack.set m.ARENAS.len ⟨w, os.acquire m.trace w, os.acquire m.trace w⟩⟩
        (size_t_inc m.ARENAS.len) with
      | none =>
        have : B.ARENA_DEPTH ≤ size_t_inc m.ARENAS.len := h2.1 hc2
        simp [this]
      | some c =>
        have hlt2 : ¬ B.ARENA_DEPTH ≤ size_t_inc m.ARENAS.len := fun h => by
          have := h2.2 h
          rw [this] at hc2
          exact Option.noConfusion hc2
        simp only []
        have hst : (if arena__alloc_failed B.platform c.base = true then
            arena__perr B.platform Msg.ARENA_FAILED_TO_ALLOC_ARENA
              ⟨⟨size_t_inc m.ARENAS.len,
                m.ARENAS.stack.set m.ARENAS.len
                  ⟨w, os.acquire m.trace w, os.acquire m.trace w⟩⟩,
               m.trace ++ [Event.alloc w (os.acquire m.trace w)]⟩
          else arena__noop
              ⟨⟨size_t_inc m.ARENAS.len,
                m.ARENAS.stack.set m.ARENAS.len
                  ⟨w, os.acquire m.trace w, os.acquire m.trace w⟩⟩,
               m.trace ++ [Event.alloc w (os.acquire m.trace w)]⟩).status ≠ .undefined := by
          split
          · exact perr_status_ne _ _ _
          · simp [arena__noop]
        simp [hst, hlt, hlt2]

theorem free_status_ne (P : Platform) (os : OS) (ptr size : Nat) (m : Machine) :
    (arena__free P os ptr size m).status ≠ .undefined := by
  cases P <;> simp only [arena__free] <;> split <;>
    first
      | exact perr_status_ne _ _ _
      | simp [arena__noop]

theorem pop_undefined_iff (B : Build) (os : OS) (m : Machine)
    (hlen : m.ARENAS.stack.length = B.ARENA_DEPTH) :
    (arena__pop B os m).status = .undefined ↔
      ∃ i ∈ arena__pop_accesses B m.ARENAS, B.ARENA_DEPTH ≤ i := by
  have hacc : (∃ i ∈ arena__pop_accesses B m.ARENAS, B.ARENA_DEPTH ≤ i) ↔
      (B.ARENA_len m.ARENAS ≠ 0 ∧ B.ARENA_DEPTH ≤ m.ARENAS.len) := by
    unfold arena__pop_accesses
    by_cases hg : B.ARENA_len m.ARENAS = 0
    · simp [hg]
    · cases hp : B.platform <;> simp [hg]
  rw [hacc]
  unfold arena__pop
  simp only []
  by_cases hg : B.ARENA_len m.ARENAS = 0
  · rw [if_pos hg]
    simp [arena__err, hg]
  · rw [if_neg hg]
    have h1 := stack_at_eq_none B m.ARENAS m.ARENAS.len hlen
    cases hc : arena__cur B m.ARENAS with
    | none =>
      have : B.ARENA_DEPTH ≤ m.ARENAS.len := h1.1 hc
      simp [this, hg]
    | some c =>
      have hlt : ¬ B.ARENA_DEPTH ≤ m.ARENAS.len := fun h => by
        have := h1.2 h
        rw [arena__cur] at hc
        rw [this] at hc
        exact Option.noConfusion hc
      have hf := free_status_ne B.platform os c.base c.size m
      simp only []
      revert hf
      generalize arena__free B.platform os c.base c.size m = r
      intro hf
      obtain ⟨st, m1⟩ := r
      cases st
      · simp [arena__noop, hlt]
      · simp [hlt]
      · exact absurd rfl hf

/-- C15 (the code departs from the claim).  The claim: with
`0 <= len <= ARENA_DEPTH`, every index of `ARENAS.stack` that `arena__push` and
`arena__pop` use is below `ARENA_DEPTH`.  With `ARENA_DEPTH` 10 and depth 9,
`arena__push` uses index 9 for its writes and index 10 for its failure check,
made after `ARENAS.len++`; at depth 10, `arena__pop` uses index 10 for both
arguments of `arena__free`. -/
theorem accesses_reach_ARENA_DEPTH :
    (pushed 9).ARENAS.len = 9 ∧
    (pushed 9).ARENAS.stack.length = posix10.ARENA_DEPTH ∧
    arena__push_accesses posix10 (pushed 9).ARENAS = [9, 9, 9, 9, 10] ∧
    (arena__push posix10 os_ok 4096 (pushed 9)).status = .undefined ∧
    (pushed 10).ARENAS.len = 10 ∧
    (pushed 10).ARENAS.stack.length = posix10.ARENA_DEPTH ∧
    arena__pop_accesses posix10 (pushed 10).ARENAS = [10, 10] ∧
    (arena__pop posix10 os_ok (pushed 10)).status = .undefined := by
  decide

end Arena
